import Mathlib

/-!
Shallow embedding of `app/services/material.py` from MoneyPrinterTurbo.

The module fetches stock video/image metadata from Pexels and Pixabay,
filters and deduplicates the candidates, and downloads chosen assets to a
content-addressed local cache.  External collaborators (the HTTP client,
the video decode-probe, the image codec) are modelled as explicit inputs:
an adapter receives the parsed-or-failed HTTP response as an
`Except String _` value, and the cache functions receive the downloaded
bytes as a `MediaBytes` record describing their size and what a
decode-probe of those bytes would report.  The filesystem is an explicit
association list from paths to `MediaBytes`, threaded through the cache
functions together with a count of network requests performed.
-/

set_option autoImplicit false

deriving instance DecidableEq for Except

/-- `MaterialType` from `app.models.schema` (referenced by `material.py`):
the kind of a candidate asset. -/
inductive MaterialType
  | video
  | image
deriving DecidableEq, Repr

/-- `MaterialInfo` from `app.models.schema`: the uniform candidate-asset
record produced by the search adapters.  Fields not assigned by an adapter
keep the schema defaults (`""`, `0`).  Durations are embedded as `ℚ`
(Python floats / JSON numbers). -/
structure MaterialInfo where
  provider : String
  url : String
  duration : ℚ
  width : Nat
  height : Nat
  type : MaterialType
deriving DecidableEq, Repr

/-- Configured value of `config.app.get(cfg_key)` in `get_api_key`
(line 20): a single string, a list of keys, or absent. -/
inductive ConfigValue
  | str (s : String)
  | list (keys : List String)
  | absent
deriving DecidableEq, Repr

/-- Python truthiness test `not api_keys` (line 21): `None`, `""` and `[]`
are falsy. -/
def ConfigValue.isFalsy : ConfigValue → Bool
  | .absent => true
  | .str s => s.isEmpty
  | .list l => l.isEmpty

/-- `get_api_key` (lines 19-33).  The process-wide counter
`requested_count` (line 16) is passed and returned explicitly.  A falsy
configured value raises `ValueError` (embedded as `.error`).  A single
string is returned without touching the counter (lines 28-29); a list
first increments the counter, then indexes `counter % len` (lines 31-33). -/
def get_api_key (cfg : ConfigValue) (requested_count : Nat) :
    Except String (String × Nat) :=
  if cfg.isFalsy then
    .error "api key is not set"
  else
    match cfg with
    | .str s => .ok (s, requested_count)
    | .list keys =>
        let c := requested_count + 1
        .ok (keys.getD (c % keys.length) "", c)
    | .absent => .error "api key is not set"

/-- One entry of `v["video_files"]` in the Pexels video response
(lines 74-78): a quality variant with a width, a height and a link. -/
structure PexelsVideoFile where
  width : Nat
  height : Nat
  link : String
deriving DecidableEq, Repr

/-- One entry of `response["videos"]` in the Pexels video response
(lines 69-74). -/
structure PexelsVideo where
  duration : ℚ
  video_files : List PexelsVideoFile
deriving DecidableEq, Repr

/-- Parsed JSON body of the Pexels video search.  `videos = none` models a
response without the `"videos"` key (line 64). -/
structure PexelsVideoResponse where
  videos : Option (List PexelsVideo)
deriving DecidableEq, Repr

/-- One entry of `v["videos"]` in the Pixabay video response
(lines 130-135): Python iterates the variant dict in insertion order,
embedded here as a list. -/
structure PixabayVideoFile where
  width : Nat
  height : Nat
  url : String
deriving DecidableEq, Repr

/-- One entry of `response["hits"]` in the Pixabay video response
(lines 125-130). -/
structure PixabayVideoHit where
  duration : ℚ
  videos : List PixabayVideoFile
deriving DecidableEq, Repr

/-- Parsed JSON body of the Pixabay video search.  `hits = none` models a
response without the `"hits"` key (line 120). -/
structure PixabayVideoResponse where
  hits : Option (List PixabayVideoHit)
deriving DecidableEq, Repr

/-- Inner loop of `search_videos_pexels` (lines 69-87): skip a video whose
duration is below the minimum; otherwise take the first file variant whose
width and height equal the requested resolution (`break` after the first
match, line 86) and emit a `MaterialInfo` with provider `"pexels"`. -/
def pexels_collect (minimum_duration : ℚ) (video_width video_height : Nat) :
    List PexelsVideo → List MaterialInfo
  | [] => []
  | v :: rest =>
    if v.duration < minimum_duration then
      pexels_collect minimum_duration video_width video_height rest
    else
      match v.video_files.find?
          (fun f => f.width == video_width && f.height == video_height) with
      | some f =>
          ⟨"pexels", f.link, v.duration, 0, 0, MaterialType.video⟩ ::
            pexels_collect minimum_duration video_width video_height rest
      | none => pexels_collect minimum_duration video_width video_height rest

/-- `search_videos_pexels` (lines 36-91).  `video_width`/`video_height`
stand for `aspect.to_resolution()` computed in `app.models.schema` (not
under `src/`); `http` is the outcome of the HTTP call plus JSON parse
(lines 55-62): any raised transport or parse exception is the `.error`
case, caught by the `except` clause which returns `[]` (lines 88-91); a
parsed body missing the `"videos"` key returns `[]` (lines 64-66). -/
def search_videos_pexels (minimum_duration : ℚ)
    (video_width video_height : Nat)
    (http : Except String PexelsVideoResponse) : List MaterialInfo :=
  match http with
  | .error _ => []
  | .ok response =>
    match response.videos with
    | none => []
    | some videos => pexels_collect minimum_duration video_width video_height videos

/-- Inner loop of `search_videos_pixabay` (lines 125-143): skip a hit
whose duration is below the minimum; otherwise take the first variant
whose width is at least the requested width (the height check is a
commented-out line 135 in the source; `break` after the first match,
line 143) and emit a `MaterialInfo` with provider `"pixabay"`. -/
def pixabay_collect (minimum_duration : ℚ) (video_width : Nat) :
    List PixabayVideoHit → List MaterialInfo
  | [] => []
  | v :: rest =>
    if v.duration < minimum_duration then
      pixabay_collect minimum_duration video_width rest
    else
      match v.videos.find? (fun f => decide (video_width ≤ f.width)) with
      | some f =>
          ⟨"pixabay", f.url, v.duration, 0, 0, MaterialType.video⟩ ::
            pixabay_collect minimum_duration video_width rest
      | none => pixabay_collect minimum_duration video_width rest

/-- `search_videos_pixabay` (lines 94-148), embedded like
`search_videos_pexels`. -/
def search_videos_pixabay (minimum_duration : ℚ) (video_width : Nat)
    (http : Except String PixabayVideoResponse) : List MaterialInfo :=
  match http with
  | .error _ => []
  | .ok response =>
    match response.hits with
    | none => []
    | some hits => pixabay_collect minimum_duration video_width hits

/-- One entry of `response["photos"]` in the Pexels image response
(lines 184-197): `original` is `p["src"]["original"]`. -/
structure PexelsPhoto where
  original : String
  width : Nat
  height : Nat
deriving DecidableEq, Repr

/-- Parsed JSON body of the Pexels image search.  `photos = none` models a
response without the `"photos"` key (line 180). -/
structure PexelsImageResponse where
  photos : Option (List PexelsPhoto)
deriving DecidableEq, Repr

/-- `search_images_pexels` (lines 151-205): every photo of the response is
mapped to a `MaterialInfo` unfiltered (the `image_type` branch at
lines 188-191 is a no-op `pass`); transport/parse failure or a missing
`"photos"` key yields `[]`. -/
def search_images_pexels (http : Except String PexelsImageResponse) :
    List MaterialInfo :=
  match http with
  | .error _ => []
  | .ok response =>
    match response.photos with
    | none => []
    | some photos =>
        photos.map (fun p =>
          ⟨"pexels", p.original, 0, p.width, p.height, MaterialType.image⟩)

/-- One entry of `response["hits"]` in the Pixabay image response
(lines 242-251). -/
structure PixabayImageHit where
  largeImageURL : String
  imageWidth : Nat
  imageHeight : Nat
deriving DecidableEq, Repr

/-- Parsed JSON body of the Pixabay image search.  `hits = none` models a
response without the `"hits"` key (line 238). -/
structure PixabayImageResponse where
  hits : Option (List PixabayImageHit)
deriving DecidableEq, Repr

/-- `search_images_pixabay` (lines 208-257): every hit of the response is
mapped to a `MaterialInfo` unfiltered; transport/parse failure or a
missing `"hits"` key yields `[]`. -/
def search_images_pixabay (http : Except String PixabayImageResponse) :
    List MaterialInfo :=
  match http with
  | .error _ => []
  | .ok response =>
    match response.hits with
    | none => []
    | some hits =>
        hits.map (fun img =>
          ⟨"pixabay", img.largeImageURL, 0, img.imageWidth, img.imageHeight,
            MaterialType.image⟩)

/-- Downloaded media bytes, as seen by the collaborators: their byte
`size`, and what a decode-probe (`VideoFileClip`, lines 295-298) of those
bytes would report — either `(duration, fps)` or a raised decode
exception. -/
structure MediaBytes where
  size : Nat
  probe : Except String (ℚ × ℚ)
deriving DecidableEq, Repr

/-- The local filesystem relevant to the cache: an association list from
paths to file bytes.  Lookup finds the first binding, insertion prepends
(overwriting), erasure removes every binding of the path. -/
abbrev FS := List (String × MediaBytes)

/-- `os.path.exists` / reading a file: the current bytes at a path. -/
def FS.lookup : FS → String → Option MediaBytes
  | [], _ => none
  | (p, mb) :: rest, q => if p = q then some mb else FS.lookup rest q

/-- Writing a file (`open(path, "wb")` + `write`, or `img.save`). -/
def FS.insert (fs : FS) (p : String) (mb : MediaBytes) : FS := (p, mb) :: fs

/-- `os.remove` (line 303). -/
def FS.erase (fs : FS) (p : String) : FS :=
  fs.filter (fun e => decide ¬ (e.1 = p))

/-- `os.path.getsize`, with 0 for a missing file (only consulted behind an
`os.path.exists` guard in the source). -/
def FS.getsize (fs : FS) (p : String) : Nat :=
  match fs.lookup p with
  | some mb => mb.size
  | none => 0

/-- Modelled from the spec: `utils.storage_dir(category)` is not under
`src/`; the spec only requires `cacheDir(category) -> path`, a
deterministic path per category. -/
def storage_dir (category : String) : String := "storage/" ++ category

/-- Python `video_url.split("?")[0]` (lines 267, 318): the prefix of the
string before the first `'?'`. -/
def take_until_query : List Char → List Char
  | [] => []
  | c :: rest => if c = '?' then [] else c :: take_until_query rest

/-- `url.split("?")[0]` as a `String` operation. -/
def url_without_query (u : String) : String := ⟨take_until_query u.data⟩

/-- Modelled from the spec: `utils.md5` is not under `src/`; the spec only
requires a deterministic content hash of the query-stripped URL
(`{type-prefix}-{hash(url_without_query_string)}.{ext}`), so it is
embedded as a deterministic injective encoding of the string. -/
def md5 (s : String) : String := s

/-- The cache path computed by `save_video` (lines 261-270):
`{save_dir}/vid-{md5(url_without_query)}.mp4`, with the default directory
of line 262 when `save_dir` is empty. -/
def video_cache_path (video_url save_dir : String) : String :=
  (if save_dir = "" then storage_dir "cache_videos" else save_dir) ++
    "/vid-" ++ md5 (url_without_query video_url) ++ ".mp4"

/-- The cache path computed by `save_image` (lines 312-321):
`{save_dir}/img-{md5(url_without_query)}.jpg`. -/
def image_cache_path (image_url save_dir : String) : String :=
  (if save_dir = "" then storage_dir "images" else save_dir) ++
    "/img-" ++ md5 (url_without_query image_url) ++ ".jpg"

/-- `save_video` (lines 260-307).  `fetch` is the outcome of
`requests.get(video_url, ...)` (lines 282-291): `.ok content` delivers the
downloaded bytes, `.error` a raised transport exception.  The result is
`(outcome, new filesystem, network requests performed)`; the outcome is
`.error` when an exception propagates out of `save_video` (the download is
not wrapped in `try` in the source, and `open` has already created the
file empty before `requests.get` is evaluated).  On a cache hit
(file exists with size > 0, lines 272-275) the path is returned at once.
After a fresh download the file is probed (lines 293-307): good metrics
return the path; bad metrics (`duration <= 0` or `fps <= 0`) fall through
to `return ""` with the file left in place; a probe exception removes the
file and returns `""`. -/
def save_video (fetch : Except String MediaBytes)
    (video_url save_dir : String) (fs : FS) :
    Except String String × FS × Nat :=
  let video_path := video_cache_path video_url save_dir
  if (fs.lookup video_path).isSome ∧ 0 < fs.getsize video_path then
    (.ok video_path, fs, 0)
  else
    match fetch with
    | .error e =>
        (.error e, fs.insert video_path ⟨0, .error "no bytes written"⟩, 1)
    | .ok content =>
        let fs1 := fs.insert video_path content
        if 0 < content.size then
          match content.probe with
          | .ok df =>
              if 0 < df.1 ∧ 0 < df.2 then (.ok video_path, fs1, 1)
              else (.ok "", fs1, 1)
          | .error _ => (.ok "", fs1.erase video_path, 1)
        else (.ok "", fs1, 1)

/-- Outcome of the image download HTTP call (lines 334-340): a status code
and the body, where `decode` is what `Image.open` on the body yields — the
byte size of the re-encoded image on success (`img.save`, line 346), or a
raised decode exception. -/
structure ImageFetchResult where
  status : Nat
  decode : Except String Nat
deriving DecidableEq, Repr

/-- `save_image` (lines 310-354).  The whole download is inside `try`, so
no exception propagates: the result is `(path-or-empty, new filesystem,
network requests performed)`.  Cache hit (lines 324-326) returns the path
at once.  Otherwise: transport failure is caught and yields `""` with
nothing written (lines 351-354); a non-200 status falls through to `""`;
a 200 body is decoded in memory first and written only on success
(lines 342-350). -/
def save_image (fetch : Except String ImageFetchResult)
    (image_url save_dir : String) (fs : FS) : String × FS × Nat :=
  let image_path := image_cache_path image_url save_dir
  if (fs.lookup image_path).isSome ∧ 0 < fs.getsize image_path then
    (image_path, fs, 0)
  else
    match fetch with
    | .error _ => ("", fs, 1)
    | .ok resp =>
        if resp.status = 200 then
          match resp.decode with
          | .ok n =>
              (image_path, fs.insert image_path ⟨n, .error "not a video"⟩, 1)
          | .error _ => ("", fs, 1)
        else ("", fs, 1)

/-- The type-specific validity of a cached video file (spec §3 "Cached
Asset File"): it exists, has non-zero size, and its bytes decode-probe to
a positive duration and frame rate. -/
def valid_video_file (fs : FS) (p : String) : Prop :=
  ∃ mb, fs.lookup p = some mb ∧ 0 < mb.size ∧
    ∃ d f, mb.probe = .ok (d, f) ∧ 0 < d ∧ 0 < f

/-- The type-specific validity of a cached image file: existence and
non-zero size (no re-decode). -/
def valid_image_file (fs : FS) (p : String) : Prop :=
  ∃ mb, fs.lookup p = some mb ∧ 0 < mb.size

/-- One step of the dedup loops (`download_videos` lines 482-486,
`download_images` lines 422-425): the accumulator is
`(valid_items, valid_urls)`; an item whose URL was already seen is
dropped, otherwise it and its URL are appended. -/
def addItem (acc : List MaterialInfo × List String) (item : MaterialInfo) :
    List MaterialInfo × List String :=
  if item.url ∈ acc.2 then acc else (acc.1 ++ [item], acc.2 ++ [item.url])

/-- The inner `for item in video_items` loop over one term's results. -/
def addItems (acc : List MaterialInfo × List String)
    (items : List MaterialInfo) : List MaterialInfo × List String :=
  items.foldl addItem acc

/-- The full search-and-dedup phase over all search terms
(`download_videos` lines 474-486, `download_images` lines 414-425),
starting from empty `valid_items`/`valid_urls`: the seen-URL list
persists across terms.  `results` is the per-term adapter output. -/
def gather_candidates (results : List (List MaterialInfo)) :
    List MaterialInfo × List String :=
  results.foldl addItems ([], [])

/-- The selection loop of `download_videos` (lines 502-520).
`materialize` is the outcome of `save_material(material_url=item.url, ...)`
for each URL, with `""` covering both an empty return and a caught
per-item exception (both skip the item, lines 509 and 519-520).  Returns
the collected paths together with the final `total_duration`.  On success
the path is appended first, then the running duration grows by
`min(max_clip_duration, item.duration)` (line 512), and the loop breaks
as soon as `total_duration > audio_duration` (line 514) — after the
append, so the budget-tripping clip is retained. -/
def download_loop (materialize : String → String)
    (max_clip_duration audio_duration : ℚ) :
    List MaterialInfo → ℚ → List String × ℚ
  | [], total_duration => ([], total_duration)
  | item :: rest, total_duration =>
    let saved_video_path := materialize item.url
    if saved_video_path = "" then
      download_loop materialize max_clip_duration audio_duration rest
        total_duration
    else
      let seconds := min max_clip_duration item.duration
      let total1 := total_duration + seconds
      if audio_duration < total1 then ([saved_video_path], total1)
      else
        let next :=
          download_loop materialize max_clip_duration audio_duration rest
            total1
        (saved_video_path :: next.1, next.2)

/-- The HTTP collaborator for the search adapters: the parsed-or-failed
response each provider returns for a search term. -/
structure SearchEnv where
  pexelsVideo : String → Except String PexelsVideoResponse
  pixabayVideo : String → Except String PixabayVideoResponse
  pexelsImage : String → Except String PexelsImageResponse
  pixabayImage : String → Except String PixabayImageResponse

/-- `download_videos` (lines 458-522).  The adapter is
`search_videos_pexels` unless `source == "pixabay"` (lines 470-472); each
term is searched with `minimum_duration = max_clip_duration` (line 477).
Candidates are deduplicated by URL across terms, shuffled only in random
concat mode (lines 499-500, `shuffle` is the random permutation drawn for
this run), then materialized under the duration budget.  `materialize`
absorbs the directory resolution of lines 493-497 together with
`save_material`; `found_duration` (line 486) is used only for logging and
is not modelled. -/
def download_videos (env : SearchEnv) (materialize : String → String)
    (shuffle : List MaterialInfo → List MaterialInfo)
    (search_terms : List String) (source : String)
    (video_width video_height : Nat) (random_mode : Bool)
    (audio_duration max_clip_duration : ℚ) : List String :=
  let results := search_terms.map (fun term =>
    if source = "pixabay" then
      search_videos_pixabay max_clip_duration video_width
        (env.pixabayVideo term)
    else
      search_videos_pexels max_clip_duration video_width video_height
        (env.pexelsVideo term))
  let valid_video_items := (gather_candidates results).1
  let ordered :=
    if random_mode then shuffle valid_video_items else valid_video_items
  (download_loop materialize max_clip_duration audio_duration ordered 0).1

/-- `download_images` (lines 399-455).  The adapter is
`search_images_pexels` unless `source == "pixabay"` (lines 410-412);
candidates are deduplicated by URL across terms, always shuffled
(line 437), and the first `min(image_count, len)` are materialized
(lines 440-452), collecting the non-empty paths (`""` again covers both
an empty return and a caught per-item exception). -/
def download_images (env : SearchEnv) (materialize : String → String)
    (shuffle : List MaterialInfo → List MaterialInfo)
    (search_terms : List String) (source : String)
    (image_count : Nat) : List String :=
  let results := search_terms.map (fun term =>
    if source = "pixabay" then
      search_images_pixabay (env.pixabayImage term)
    else
      search_images_pexels (env.pexelsImage term))
  let valid_image_items := (gather_candidates results).1
  let shuffled := shuffle valid_image_items
  let count := min image_count shuffled.length
  ((shuffled.take count).map (fun item => materialize item.url)).filter
    (fun p => decide ¬ (p = ""))

/-! ### Concrete inputs used to instantiate the claims -/

/-- Three candidates of duration 3 used to exercise the selection loop's
budget stop (spec §8's example `[3,3,3]`, `maxClipDuration=5`). -/
def c2_candidates : List MaterialInfo :=
  [⟨"pexels", "u1", 3, 0, 0, MaterialType.video⟩,
   ⟨"pexels", "u2", 3, 0, 0, MaterialType.video⟩,
   ⟨"pexels", "u3", 3, 0, 0, MaterialType.video⟩]

/-- A search environment whose every HTTP call fails, for instantiating
orchestrator-level statements. -/
def trivial_env : SearchEnv :=
  ⟨fun _ => .error "offline", fun _ => .error "offline",
   fun _ => .error "offline", fun _ => .error "offline"⟩

/-- Per-term adapter output where the URL `"u"` appears under two search
terms (and two providers). -/
def c4_results : List (List MaterialInfo) :=
  [[⟨"pexels", "u", 10, 0, 0, MaterialType.video⟩,
    ⟨"pexels", "v", 8, 0, 0, MaterialType.video⟩],
   [⟨"pixabay", "u", 99, 0, 0, MaterialType.video⟩,
    ⟨"pixabay", "w", 7, 0, 0, MaterialType.video⟩]]

/-- A Pexels video response with one 10-second video carrying a 640×360
variant before the exact 1080×1920 match. -/
def c5_pexels_http : Except String PexelsVideoResponse :=
  .ok ⟨some [⟨10, [⟨640, 360, "bad.mp4"⟩, ⟨1080, 1920, "good.mp4"⟩]⟩]⟩

/-- A Pixabay video response with one 8-second hit carrying a 600-wide
variant before the first 1080-or-wider one. -/
def c5_pixabay_http : Except String PixabayVideoResponse :=
  .ok ⟨some [⟨8, [⟨600, 300, "small.mp4"⟩, ⟨1200, 700, "big.mp4"⟩]⟩]⟩

/-! ### Helper lemmas about the asset cache -/

theorem FS.lookup_insert (fs : FS) (p : String) (mb : MediaBytes) :
    (fs.insert p mb).lookup p = some mb := by
  simp [FS.insert, FS.lookup]

theorem FS.lookup_erase (fs : FS) (p : String) :
    (fs.erase p).lookup p = none := by
  induction fs with
  | nil => rfl
  | cons e rest ih =>
    obtain ⟨q, mb⟩ := e
    by_cases h : q = p
    · simpa [FS.erase, List.filter_cons, h] using ih
    · simpa [FS.erase, List.filter_cons, h, FS.lookup] using ih

theorem save_video_hit (fetch : Except String MediaBytes) (url dir : String) (fs : FS)
    (h : (fs.lookup (video_cache_path url dir)).isSome ∧
      0 < fs.getsize (video_cache_path url dir)) :
    save_video fetch url dir fs = (.ok (video_cache_path url dir), fs, 0) := by
  simp only [save_video]
  rw [if_pos h]

theorem save_video_miss_error (e : String) (url dir : String) (fs : FS)
    (h : ¬ ((fs.lookup (video_cache_path url dir)).isSome ∧
      0 < fs.getsize (video_cache_path url dir))) :
    save_video (.error e) url dir fs =
      (.error e, fs.insert (video_cache_path url dir) ⟨0, .error "no bytes written"⟩, 1) := by
  simp only [save_video]
  rw [if_neg h]

theorem save_video_miss_good (content : MediaBytes) (url dir : String) (fs : FS)
    (d f : ℚ)
    (h : ¬ ((fs.lookup (video_cache_path url dir)).isSome ∧
      0 < fs.getsize (video_cache_path url dir)))
    (hsz : 0 < content.size) (hpr : content.probe = .ok (d, f))
    (hd : 0 < d ∧ 0 < f) :
    save_video (.ok content) url dir fs =
      (.ok (video_cache_path url dir), fs.insert (video_cache_path url dir) content, 1) := by
  simp only [save_video]
  rw [if_neg h]
  simp only [hpr, if_pos hsz]
  rw [if_pos]
  exact hd

theorem save_video_miss_badmetrics (content : MediaBytes) (url dir : String) (fs : FS)
    (d f : ℚ)
    (h : ¬ ((fs.lookup (video_cache_path url dir)).isSome ∧
      0 < fs.getsize (video_cache_path url dir)))
    (hsz : 0 < content.size) (hpr : content.probe = .ok (d, f))
    (hd : ¬ (0 < d ∧ 0 < f)) :
    save_video (.ok content) url dir fs =
      (.ok "", fs.insert (video_cache_path url dir) content, 1) := by
  simp only [save_video]
  rw [if_neg h]
  simp only [hpr, if_pos hsz]
  rw [if_neg]
  exact hd

theorem save_video_miss_probeerr (content : MediaBytes) (url dir : String) (fs : FS)
    (e : String)
    (h : ¬ ((fs.lookup (video_cache_path url dir)).isSome ∧
      0 < fs.getsize (video_cache_path url dir)))
    (hsz : 0 < content.size) (hpr : content.probe = .error e) :
    save_video (.ok content) url dir fs =
      (.ok "", (fs.insert (video_cache_path url dir) content).erase (video_cache_path url dir), 1) := by
  simp only [save_video]
  rw [if_neg h]
  simp only [hpr, if_pos hsz]

theorem save_video_miss_emptyfile (content : MediaBytes) (url dir : String) (fs : FS)
    (h : ¬ ((fs.lookup (video_cache_path url dir)).isSome ∧
      0 < fs.getsize (video_cache_path url dir)))
    (hsz : ¬ 0 < content.size) :
    save_video (.ok content) url dir fs =
      (.ok "", fs.insert (video_cache_path url dir) content, 1) := by
  simp only [save_video]
  rw [if_neg h]
  simp only [if_neg hsz]

theorem save_video_miss_requests (fetch : Except String MediaBytes) (url dir : String) (fs : FS)
    (h : ¬ ((fs.lookup (video_cache_path url dir)).isSome ∧
      0 < fs.getsize (video_cache_path url dir))) :
    (save_video fetch url dir fs).2.2 = 1 := by
  simp only [save_video]
  rw [if_neg h]
  cases fetch with
  | error e => rfl
  | ok content =>
    by_cases hsz : 0 < content.size
    · simp only [if_pos hsz]
      cases hpr : content.probe with
      | ok df =>
        by_cases hd : 0 < df.1 ∧ 0 < df.2
        · simp [hd]
        · simp [hd]
      | error e => simp
    · simp only [if_neg hsz]

theorem save_image_hit (fetch : Except String ImageFetchResult) (url dir : String) (fs : FS)
    (h : (fs.lookup (image_cache_path url dir)).isSome ∧
      0 < fs.getsize (image_cache_path url dir)) :
    save_image fetch url dir fs = (image_cache_path url dir, fs, 0) := by
  simp only [save_image]
  rw [if_pos h]

theorem save_image_miss_error (e : String) (url dir : String) (fs : FS)
    (h : ¬ ((fs.lookup (image_cache_path url dir)).isSome ∧
      0 < fs.getsize (image_cache_path url dir))) :
    save_image (.error e) url dir fs = ("", fs, 1) := by
  simp only [save_image]
  rw [if_neg h]

theorem save_image_miss_decode (resp : ImageFetchResult) (url dir : String) (fs : FS)
    (n : Nat)
    (h : ¬ ((fs.lookup (image_cache_path url dir)).isSome ∧
      0 < fs.getsize (image_cache_path url dir)))
    (hst : resp.status = 200) (hdec : resp.decode = .ok n) :
    save_image (.ok resp) url dir fs =
      (image_cache_path url dir,
        fs.insert (image_cache_path url dir) ⟨n, .error "not a video"⟩, 1) := by
  simp only [save_image]
  rw [if_neg h]
  simp only [hst, hdec, if_pos]

theorem save_image_miss_decodeerr (resp : ImageFetchResult) (url dir : String) (fs : FS)
    (e : String)
    (h : ¬ ((fs.lookup (image_cache_path url dir)).isSome ∧
      0 < fs.getsize (image_cache_path url dir)))
    (hst : resp.status = 200) (hdec : resp.decode = .error e) :
    save_image (.ok resp) url dir fs = ("", fs, 1) := by
  simp only [save_image]
  rw [if_neg h]
  simp only [hst, hdec, if_pos]

theorem save_image_miss_badstatus (resp : ImageFetchResult) (url dir : String) (fs : FS)
    (h : ¬ ((fs.lookup (image_cache_path url dir)).isSome ∧
      0 < fs.getsize (image_cache_path url dir)))
    (hst : ¬ resp.status = 200) :
    save_image (.ok resp) url dir fs = ("", fs, 1) := by
  simp only [save_image]
  rw [if_neg h]
  simp only [if_neg hst]

theorem valid_video_file_hit (fs : FS) (p : String) (h : valid_video_file fs p) :
    (fs.lookup p).isSome ∧ 0 < fs.getsize p := by
  obtain ⟨mb, hl, hsz, -⟩ := h
  refine ⟨by simp [hl], ?_⟩
  simp [FS.getsize, hl, hsz]

theorem valid_image_file_hit (fs : FS) (p : String) (h : valid_image_file fs p) :
    (fs.lookup p).isSome ∧ 0 < fs.getsize p := by
  obtain ⟨mb, hl, hsz⟩ := h
  refine ⟨by simp [hl], ?_⟩
  simp [FS.getsize, hl, hsz]

/-! ### Helper lemmas about the selection loop, dedup and adapters -/

theorem download_loop_skip (m : String → String) (cap audio : ℚ)
    (item : MaterialInfo) (rest : List MaterialInfo) (total : ℚ)
    (h : m item.url = "") :
    download_loop m cap audio (item :: rest) total =
      download_loop m cap audio rest total := by
  simp [download_loop, h]

theorem download_loop_cont (m : String → String) (cap audio : ℚ)
    (item : MaterialInfo) (rest : List MaterialInfo) (total : ℚ)
    (h : ¬ m item.url = "")
    (h2 : ¬ audio < total + min cap item.duration) :
    download_loop m cap audio (item :: rest) total =
      (m item.url ::
        (download_loop m cap audio rest (total + min cap item.duration)).1,
       (download_loop m cap audio rest (total + min cap item.duration)).2) := by
  simp [download_loop, h, h2]

theorem download_loop_stop (m : String → String) (cap audio : ℚ)
    (item : MaterialInfo) (rest : List MaterialInfo) (total : ℚ)
    (h : ¬ m item.url = "")
    (h2 : audio < total + min cap item.duration) :
    download_loop m cap audio (item :: rest) total =
      ([m item.url], total + min cap item.duration) := by
  simp [download_loop, h, h2]

theorem download_loop_total_le (m : String → String) (cap audio : ℚ)
    (hcap : 0 ≤ cap) :
    ∀ (items : List MaterialInfo) (total : ℚ), total ≤ audio →
      (download_loop m cap audio items total).2 ≤ audio + cap := by
  intro items
  induction items with
  | nil =>
    intro total htot
    show total ≤ audio + cap
    linarith
  | cons item rest ih =>
    intro total htot
    by_cases hm : m item.url = ""
    · rw [download_loop_skip m cap audio item rest total hm]
      exact ih total htot
    · by_cases hstop : audio < total + min cap item.duration
      · rw [download_loop_stop m cap audio item rest total hm hstop]
        show total + min cap item.duration ≤ audio + cap
        have := min_le_left cap item.duration
        linarith
      · rw [download_loop_cont m cap audio item rest total hm hstop]
        show (download_loop m cap audio rest (total + min cap item.duration)).2 ≤
          audio + cap
        exact ih _ (le_of_not_lt hstop)

theorem addItem_fold_invariant (stream : List MaterialInfo) :
    ∀ acc : List MaterialInfo × List String,
      acc.2 = acc.1.map (fun i => i.url) → acc.2.Nodup →
      ((stream.foldl addItem acc).2 =
        (stream.foldl addItem acc).1.map (fun i => i.url) ∧
       (stream.foldl addItem acc).2.Nodup ∧
       ∀ item ∈ (stream.foldl addItem acc).1,
         item ∈ acc.1 ∨ (item.url ∉ acc.2 ∧
           stream.find? (fun x => x.url == item.url) = some item)) := by
  induction stream with
  | nil =>
    intro acc h1 h2
    exact ⟨h1, h2, fun item hi => Or.inl hi⟩
  | cons x rest ih =>
    intro acc h1 h2
    by_cases hx : x.url ∈ acc.2
    · have hstep : addItem acc x = acc := by simp [addItem, hx]
      rw [List.foldl_cons, hstep]
      obtain ⟨g1, g2, g3⟩ := ih acc h1 h2
      refine ⟨g1, g2, fun item hi => ?_⟩
      rcases g3 item hi with h | ⟨hnot, hfind⟩
      · exact Or.inl h
      · refine Or.inr ⟨hnot, ?_⟩
        have hne : (x.url == item.url) = false := by
          rw [beq_eq_false_iff_ne]
          intro hEq
          rw [hEq] at hx
          exact hnot hx
        rw [List.find?_cons_of_neg rest (by simp [hne])]
        exact hfind
    · have hstep : addItem acc x = (acc.1 ++ [x], acc.2 ++ [x.url]) := by
        simp [addItem, hx]
      rw [List.foldl_cons, hstep]
      have h1' : (acc.1 ++ [x], acc.2 ++ [x.url]).2 =
          (acc.1 ++ [x], acc.2 ++ [x.url]).1.map (fun i => i.url) := by
        simp [h1]
      have h2' : (acc.1 ++ [x], acc.2 ++ [x.url]).2.Nodup := by
        simp only []
        rw [List.nodup_append]
        exact ⟨h2, List.nodup_singleton _, by simpa using hx⟩
      obtain ⟨g1, g2, g3⟩ := ih _ h1' h2'
      refine ⟨g1, g2, fun item hi => ?_⟩
      rcases g3 item hi with h | ⟨hnot, hfind⟩
      · rcases List.mem_append.mp h with h | h
        · exact Or.inl h
        · have hxitem : item = x := by simpa using h
          subst hxitem
          refine Or.inr ⟨hx, ?_⟩
          rw [List.find?_cons_of_pos rest (by simp)]
      · have hn2 : item.url ∉ acc.2 := fun hc =>
          hnot (List.mem_append.mpr (Or.inl hc))
        have hnx : ¬ item.url = x.url := fun hc => hnot (by simp [hc])
        refine Or.inr ⟨hn2, ?_⟩
        have hne : (x.url == item.url) = false := by
          rw [beq_eq_false_iff_ne]
          exact fun hEq => hnx hEq.symm
        rw [List.find?_cons_of_neg rest (by simp [hne])]
        exact hfind

theorem gather_candidates_eq_flatten (results : List (List MaterialInfo)) :
    gather_candidates results = (results.flatten).foldl addItem ([], []) := by
  suffices h : ∀ acc : List MaterialInfo × List String,
      results.foldl addItems acc = (results.flatten).foldl addItem acc by
    exact h ([], [])
  induction results with
  | nil => intro acc; rfl
  | cons r rs ih =>
    intro acc
    rw [List.foldl_cons, List.flatten_cons, List.foldl_append, ih]
    rfl

theorem pexels_collect_mem (minimum_duration : ℚ) (w h : Nat)
    (videos : List PexelsVideo) :
    ∀ item ∈ pexels_collect minimum_duration w h videos,
      ∃ v ∈ videos, ¬ v.duration < minimum_duration ∧
        ∃ fvar, v.video_files.find?
            (fun g => g.width == w && g.height == h) = some fvar ∧
          item = ⟨"pexels", fvar.link, v.duration, 0, 0, MaterialType.video⟩ := by
  induction videos with
  | nil =>
    intro item hmem
    simp [pexels_collect] at hmem
  | cons v rest ih =>
    intro item hmem
    rw [pexels_collect] at hmem
    by_cases hd : v.duration < minimum_duration
    · rw [if_pos hd] at hmem
      obtain ⟨v', hv', rest'⟩ := ih item hmem
      exact ⟨v', List.mem_cons_of_mem v hv', rest'⟩
    · rw [if_neg hd] at hmem
      cases hf : v.video_files.find? (fun g => g.width == w && g.height == h) with
      | some fvar =>
        rw [hf] at hmem
        rcases List.mem_cons.mp hmem with rfl | hmem'
        · exact ⟨v, List.mem_cons_self v rest, hd, fvar, hf, rfl⟩
        · obtain ⟨v', hv', rest'⟩ := ih item hmem'
          exact ⟨v', List.mem_cons_of_mem v hv', rest'⟩
      | none =>
        rw [hf] at hmem
        obtain ⟨v', hv', rest'⟩ := ih item hmem
        exact ⟨v', List.mem_cons_of_mem v hv', rest'⟩

theorem pixabay_collect_mem (minimum_duration : ℚ) (w : Nat)
    (hits : List PixabayVideoHit) :
    ∀ item ∈ pixabay_collect minimum_duration w hits,
      ∃ v ∈ hits, ¬ v.duration < minimum_duration ∧
        ∃ fvar, v.videos.find? (fun g => decide (w ≤ g.width)) = some fvar ∧
          item = ⟨"pixabay", fvar.url, v.duration, 0, 0, MaterialType.video⟩ := by
  induction hits with
  | nil =>
    intro item hmem
    simp [pixabay_collect] at hmem
  | cons v rest ih =>
    intro item hmem
    rw [pixabay_collect] at hmem
    by_cases hd : v.duration < minimum_duration
    · rw [if_pos hd] at hmem
      obtain ⟨v', hv', rest'⟩ := ih item hmem
      exact ⟨v', List.mem_cons_of_mem v hv', rest'⟩
    · rw [if_neg hd] at hmem
      cases hf : v.videos.find? (fun g => decide (w ≤ g.width)) with
      | some fvar =>
        rw [hf] at hmem
        rcases List.mem_cons.mp hmem with rfl | hmem'
        · exact ⟨v, List.mem_cons_self v rest, hd, fvar, hf, rfl⟩
        · obtain ⟨v', hv', rest'⟩ := ih item hmem'
          exact ⟨v', List.mem_cons_of_mem v hv', rest'⟩
      | none =>
        rw [hf] at hmem
        obtain ⟨v', hv', rest'⟩ := ih item hmem
        exact ⟨v', List.mem_cons_of_mem v hv', rest'⟩

/-! ### Claim theorems -/

/-- Claim C1 counterexample: a cached non-empty video file whose bytes do
not decode (`probe` is an error) is returned as a cache hit with zero
network requests and an unchanged filesystem — `save_video` performs no
decode-probe re-validation on a cache hit, does not remove the file, and a
next call (even one that could fetch a good copy) still re-downloads
nothing. -/
theorem C1_counterexample :
    save_video (.error "network down") "u" "d"
        [("d/vid-u.mp4", ⟨5, .error "undecodable"⟩)] =
      (.ok "d/vid-u.mp4", [("d/vid-u.mp4", ⟨5, .error "undecodable"⟩)], 0) ∧
    save_video (.ok ⟨9, .ok (3, 30)⟩) "u" "d"
        [("d/vid-u.mp4", ⟨5, .error "undecodable"⟩)] =
      (.ok "d/vid-u.mp4", [("d/vid-u.mp4", ⟨5, .error "undecodable"⟩)], 0) := by
  exact ⟨by decide, by decide⟩

/-- Claim C1 as amended: when the cache file exists with size > 0,
`save_video` returns its path at once with no decode-probe, no removal and
zero network requests; the decode-probe applies only to freshly downloaded
bytes, and only a probe exception there removes the file, after which the
next call for the same URL is a cache miss that performs a download
(one network request). -/
theorem C1_cache_hit_no_revalidation :
    (∀ (fetch : Except String MediaBytes) (url dir : String) (fs : FS),
      (fs.lookup (video_cache_path url dir)).isSome ∧
        0 < fs.getsize (video_cache_path url dir) →
      save_video fetch url dir fs = (.ok (video_cache_path url dir), fs, 0)) ∧
    (∀ (content : MediaBytes) (url dir : String) (fs : FS) (e : String),
      ¬ ((fs.lookup (video_cache_path url dir)).isSome ∧
        0 < fs.getsize (video_cache_path url dir)) →
      0 < content.size → content.probe = .error e →
      save_video (.ok content) url dir fs =
        (.ok "", (fs.insert (video_cache_path url dir) content).erase
          (video_cache_path url dir), 1) ∧
      ∀ fetch2 : Except String MediaBytes,
        (save_video fetch2 url dir
          ((fs.insert (video_cache_path url dir) content).erase
            (video_cache_path url dir))).2.2 = 1) := by
  constructor
  · exact fun fetch url dir fs h => save_video_hit fetch url dir fs h
  · intro content url dir fs e hmiss hsz hpr
    refine ⟨save_video_miss_probeerr content url dir fs e hmiss hsz hpr, ?_⟩
    intro fetch2
    apply save_video_miss_requests
    rw [FS.lookup_erase]
    simp

/-- Witness for the amended claim C1 at concrete inputs. -/
theorem C1_cache_hit_no_revalidation_witness :
    save_video (.error "nd") "w" "d" [("d/vid-w.mp4", ⟨4, .ok (2, 30)⟩)] =
      (.ok (video_cache_path "w" "d"), [("d/vid-w.mp4", ⟨4, .ok (2, 30)⟩)], 0) ∧
    (save_video (.ok ⟨6, .error "bad"⟩) "w2" "d" [] =
      (.ok "", FS.erase [(video_cache_path "w2" "d", ⟨6, .error "bad"⟩)]
        (video_cache_path "w2" "d"), 1) ∧
    ∀ fetch2 : Except String MediaBytes,
      (save_video fetch2 "w2" "d"
        (FS.erase [(video_cache_path "w2" "d", ⟨6, .error "bad"⟩)]
          (video_cache_path "w2" "d"))).2.2 = 1) :=
  ⟨C1_cache_hit_no_revalidation.1 (.error "nd") "w" "d" [("d/vid-w.mp4", ⟨4, .ok (2, 30)⟩)] (by decide),
   C1_cache_hit_no_revalidation.2 ⟨6, .error "bad"⟩ "w2" "d" [] "bad" (by decide) (by decide) rfl⟩

/-- Claim C2 counterexample: with candidate durations `[3,3,3]`,
`maxClipDuration = 5` and `audioDuration = 7`, and every materialize
succeeding, the selection loop retains 3 clips, not 2: the path is
appended before the budget check, so the clip that trips the budget is
kept. -/
theorem C2_counterexample :
    (download_loop (fun u => u) 5 7 c2_candidates 0).1.length = 3 ∧
    ¬ (download_loop (fun u => u) 5 7 c2_candidates 0).1.length = 2 := by
  have h : (download_loop (fun u => u) 5 7 c2_candidates 0).1 = ["u1", "u2", "u3"] := by
    norm_num [download_loop, c2_candidates, min_def]
    decide
  rw [h]
  exact ⟨rfl, by decide⟩

/-- Claim C2 as amended: with durations `[3,3,3]`, cap 5 and budget 7 the
loop retains exactly 3 clips and stops with running total 9; the stop
condition is strict `>` — at budget 6 the running total 6 does not stop
the loop (a `>=` check would), while at budget 11/2 the loop stops after
the second clip, which is itself retained. -/
theorem C2_budget_retains_three :
    download_loop (fun u => u) 5 7 c2_candidates 0 = (["u1", "u2", "u3"], 9) ∧
    (download_loop (fun u => u) 5 6 c2_candidates 0).1 = ["u1", "u2", "u3"] ∧
    (download_loop (fun u => u) 5 (11/2 : ℚ) c2_candidates 0).1 = ["u1", "u2"] := by
  refine ⟨?_, ?_, ?_⟩ <;>
    · norm_num [download_loop, c2_candidates, min_def]
      decide

/-- Claim C3: in the selection loop of `download_videos`, a successfully
materialized candidate adds `min(maxClipDuration, duration)` to the
running duration; the loop stops as soon as it strictly exceeds
`audioDuration` (retaining the tripping clip, so it overshoots by at most
one capped clip: the final total is at most `audioDuration +
maxClipDuration`); and a candidate whose materialize returns empty neither
counts toward the budget nor stops the loop. -/
theorem C3_budget_accumulation (materialize : String → String)
    (max_clip_duration audio_duration : ℚ) :
    (∀ (item : MaterialInfo) (rest : List MaterialInfo) (total : ℚ),
      materialize item.url = "" →
      download_loop materialize max_clip_duration audio_duration
          (item :: rest) total =
        download_loop materialize max_clip_duration audio_duration rest total) ∧
    (∀ (item : MaterialInfo) (rest : List MaterialInfo) (total : ℚ),
      ¬ materialize item.url = "" →
      ¬ audio_duration < total + min max_clip_duration item.duration →
      download_loop materialize max_clip_duration audio_duration
          (item :: rest) total =
        (materialize item.url ::
          (download_loop materialize max_clip_duration audio_duration rest
            (total + min max_clip_duration item.duration)).1,
         (download_loop materialize max_clip_duration audio_duration rest
            (total + min max_clip_duration item.duration)).2)) ∧
    (∀ (item : MaterialInfo) (rest : List MaterialInfo) (total : ℚ),
      ¬ materialize item.url = "" →
      audio_duration < total + min max_clip_duration item.duration →
      download_loop materialize max_clip_duration audio_duration
          (item :: rest) total =
        ([materialize item.url], total + min max_clip_duration item.duration)) ∧
    (∀ (items : List MaterialInfo) (total : ℚ),
      0 ≤ max_clip_duration → total ≤ audio_duration →
      (download_loop materialize max_clip_duration audio_duration items
          total).2 ≤ audio_duration + max_clip_duration) :=
  ⟨fun item rest total h =>
    download_loop_skip materialize max_clip_duration audio_duration item rest total h,
   fun item rest total h h2 =>
    download_loop_cont materialize max_clip_duration audio_duration item rest total h h2,
   fun item rest total h h2 =>
    download_loop_stop materialize max_clip_duration audio_duration item rest total h h2,
   fun items total hcap htot =>
    download_loop_total_le materialize max_clip_duration audio_duration hcap items total htot⟩

/-- Witness for claim C3 at concrete inputs. -/
theorem C3_budget_accumulation_witness :
    download_loop (fun _ => "") 5 7
        [⟨"pexels", "b", 3, 0, 0, MaterialType.video⟩] 0 =
      download_loop (fun _ => "") 5 7 [] 0 ∧
    download_loop (fun u => u) 5 7
        [⟨"pexels", "g1", 3, 0, 0, MaterialType.video⟩] 0 =
      ("g1" :: (download_loop (fun u => u) 5 7 [] (0 + min 5 3)).1,
        (download_loop (fun u => u) 5 7 [] (0 + min 5 3)).2) ∧
    download_loop (fun u => u) 5 7
        [⟨"pexels", "g2", 3, 0, 0, MaterialType.video⟩] 5 =
      (["g2"], 5 + min 5 3) ∧
    (download_loop (fun u => u) 5 7 [] 0).2 ≤ 7 + 5 :=
  ⟨(C3_budget_accumulation (fun _ => "") 5 7).1 ⟨"pexels", "b", 3, 0, 0, MaterialType.video⟩ [] 0 rfl,
   (C3_budget_accumulation (fun u => u) 5 7).2.1 ⟨"pexels", "g1", 3, 0, 0, MaterialType.video⟩ [] 0
     (by decide) (by rw [min_def]; norm_num),
   (C3_budget_accumulation (fun u => u) 5 7).2.2.1 ⟨"pexels", "g2", 3, 0, 0, MaterialType.video⟩ [] 5
     (by decide) (by rw [min_def]; norm_num),
   (C3_budget_accumulation (fun u => u) 5 7).2.2.2 [] 0 (by norm_num) (by norm_num)⟩

/-- Claim C4: the candidate list gathered by `download_videos` and
`download_images` (both build it with `gather_candidates`) never contains
two entries with equal `url`, and each retained item is the first
occurrence of its URL in the concatenated per-term adapter results — the
seen-URL set persists across search terms. -/
theorem C4_dedup_by_url (results : List (List MaterialInfo)) :
    ((gather_candidates results).1.map (fun i => i.url)).Nodup ∧
    ∀ item ∈ (gather_candidates results).1,
      (results.flatten).find? (fun x => x.url == item.url) = some item := by
  rw [gather_candidates_eq_flatten]
  obtain ⟨g1, g2, g3⟩ :=
    addItem_fold_invariant results.flatten ([], []) rfl List.nodup_nil
  refine ⟨?_, ?_⟩
  · rw [← g1]
    exact g2
  · intro item hi
    rcases g3 item hi with h | ⟨-, hfind⟩
    · simp at h
    · exact hfind

/-- Witness for claim C4 at the concrete duplicated-URL input. -/
theorem C4_dedup_by_url_witness :
    ((gather_candidates c4_results).1.map (fun i => i.url)).Nodup ∧
    (c4_results.flatten).find?
        (fun x => x.url == (⟨"pexels", "u", 10, 0, 0, MaterialType.video⟩ :
          MaterialInfo).url) =
      some ⟨"pexels", "u", 10, 0, 0, MaterialType.video⟩ :=
  ⟨(C4_dedup_by_url c4_results).1,
   (C4_dedup_by_url c4_results).2 ⟨"pexels", "u", 10, 0, 0, MaterialType.video⟩ (by decide)⟩

/-- Claim C5: every retained video candidate has duration at least the
caller's `minimum_duration`; a retained Pexels candidate takes the first
file variant whose width and height exactly equal the requested
resolution (variants before it do not match, variants after it are
ignored); a retained Pixabay candidate takes the first variant whose
width is at least the requested width (variants before it are narrower),
with no height condition. -/
theorem C5_video_filters (minimum_duration : ℚ) (video_width video_height : Nat) :
    (∀ (http : Except String PexelsVideoResponse) (item : MaterialInfo),
      item ∈ search_videos_pexels minimum_duration video_width video_height http →
      minimum_duration ≤ item.duration ∧
      ∃ videos v, http = .ok ⟨some videos⟩ ∧ v ∈ videos ∧
        item.duration = v.duration ∧
        ∃ pre fvar post, v.video_files = pre ++ fvar :: post ∧
          fvar.width = video_width ∧ fvar.height = video_height ∧
          item.url = fvar.link ∧
          ∀ g ∈ pre, ¬ (g.width = video_width ∧ g.height = video_height)) ∧
    (∀ (http : Except String PixabayVideoResponse) (item : MaterialInfo),
      item ∈ search_videos_pixabay minimum_duration video_width http →
      minimum_duration ≤ item.duration ∧
      ∃ hits v, http = .ok ⟨some hits⟩ ∧ v ∈ hits ∧
        item.duration = v.duration ∧
        ∃ pre fvar post, v.videos = pre ++ fvar :: post ∧
          video_width ≤ fvar.width ∧ item.url = fvar.url ∧
          ∀ g ∈ pre, g.width < video_width) := by
  constructor
  · intro http item hmem
    match http with
    | .error e => simp [search_videos_pexels] at hmem
    | .ok ⟨none⟩ => simp [search_videos_pexels] at hmem
    | .ok ⟨some videos⟩ =>
      obtain ⟨v, hv, hd, fvar, hf, hitem⟩ :=
        pexels_collect_mem minimum_duration video_width video_height videos item hmem
      obtain ⟨hpf, pre, post, heq, hpre⟩ := List.find?_eq_some.mp hf
      have hwf : fvar.width = video_width ∧ fvar.height = video_height := by
        simpa using hpf
      subst hitem
      refine ⟨not_lt.mp hd, videos, v, rfl, hv, rfl, pre, fvar, post, heq,
        hwf.1, hwf.2, rfl, ?_⟩
      intro g hg
      have hb := hpre g hg
      intro hc
      rw [hc.1, hc.2] at hb
      simp at hb
  · intro http item hmem
    match http with
    | .error e => simp [search_videos_pixabay] at hmem
    | .ok ⟨none⟩ => simp [search_videos_pixabay] at hmem
    | .ok ⟨some hits⟩ =>
      obtain ⟨v, hv, hd, fvar, hf, hitem⟩ :=
        pixabay_collect_mem minimum_duration video_width hits item hmem
      obtain ⟨hpf, pre, post, heq, hpre⟩ := List.find?_eq_some.mp hf
      have hwf : video_width ≤ fvar.width := by simpa using hpf
      subst hitem
      refine ⟨not_lt.mp hd, hits, v, rfl, hv, rfl, pre, fvar, post, heq,
        hwf, rfl, ?_⟩
      intro g hg
      have hb := hpre g hg
      simp at hb
      omega

/-- Witness for claim C5 at the concrete responses. -/
theorem C5_video_filters_witness :
    ((5 : ℚ) ≤ (⟨"pexels", "good.mp4", 10, 0, 0, MaterialType.video⟩ :
        MaterialInfo).duration ∧
      ∃ videos v, c5_pexels_http = .ok ⟨some videos⟩ ∧ v ∈ videos ∧
        (⟨"pexels", "good.mp4", 10, 0, 0, MaterialType.video⟩ :
          MaterialInfo).duration = v.duration ∧
        ∃ pre fvar post, v.video_files = pre ++ fvar :: post ∧
          fvar.width = 1080 ∧ fvar.height = 1920 ∧
          (⟨"pexels", "good.mp4", 10, 0, 0, MaterialType.video⟩ :
            MaterialInfo).url = fvar.link ∧
          ∀ g ∈ pre, ¬ (g.width = 1080 ∧ g.height = 1920)) ∧
    ((5 : ℚ) ≤ (⟨"pixabay", "big.mp4", 8, 0, 0, MaterialType.video⟩ :
        MaterialInfo).duration ∧
      ∃ hits v, c5_pixabay_http = .ok ⟨some hits⟩ ∧ v ∈ hits ∧
        (⟨"pixabay", "big.mp4", 8, 0, 0, MaterialType.video⟩ :
          MaterialInfo).duration = v.duration ∧
        ∃ pre fvar post, v.videos = pre ++ fvar :: post ∧
          1080 ≤ fvar.width ∧
          (⟨"pixabay", "big.mp4", 8, 0, 0, MaterialType.video⟩ :
            MaterialInfo).url = fvar.url ∧
          ∀ g ∈ pre, g.width < 1080) :=
  ⟨(C5_video_filters 5 1080 1920).1 c5_pexels_http
      ⟨"pexels", "good.mp4", 10, 0, 0, MaterialType.video⟩ (by decide),
   (C5_video_filters 5 1080 1920).2 c5_pixabay_http
      ⟨"pixabay", "big.mp4", 8, 0, 0, MaterialType.video⟩ (by decide)⟩

/-- Claim C6: each of the four search adapters maps a transport or parse
failure of its HTTP call (`.error`), and a parsed response missing its
result field (`videos`/`hits`/`photos`), to the empty candidate list; in
the embedding the adapters are total functions, so no such failure
escapes the adapter boundary. -/
theorem C6_adapter_failures_empty (e : String) (minimum_duration : ℚ)
    (video_width video_height : Nat) :
    search_videos_pexels minimum_duration video_width video_height (.error e) = [] ∧
    search_videos_pexels minimum_duration video_width video_height (.ok ⟨none⟩) = [] ∧
    search_videos_pixabay minimum_duration video_width (.error e) = [] ∧
    search_videos_pixabay minimum_duration video_width (.ok ⟨none⟩) = [] ∧
    search_images_pexels (.error e) = [] ∧
    search_images_pexels (.ok ⟨none⟩) = [] ∧
    search_images_pixabay (.error e) = [] ∧
    search_images_pixabay (.ok ⟨none⟩) = [] :=
  ⟨rfl, rfl, rfl, rfl, rfl, rfl, rfl, rfl⟩

/-- Claim C7: calling `save_video` (respectively `save_image`) twice with
the same URL, when after the first call a valid cached file exists
(exists, non-zero size, passes type-specific validation), performs zero
network requests on the second call and returns the same path both
times. -/
theorem C7_materialize_idempotent :
    (∀ (fetch1 fetch2 : Except String MediaBytes) (url dir : String) (fs : FS),
      valid_video_file (save_video fetch1 url dir fs).2.1 (video_cache_path url dir) →
      (save_video fetch1 url dir fs).1 = .ok (video_cache_path url dir) ∧
      save_video fetch2 url dir (save_video fetch1 url dir fs).2.1 =
        (.ok (video_cache_path url dir), (save_video fetch1 url dir fs).2.1, 0)) ∧
    (∀ (fetch1 fetch2 : Except String ImageFetchResult) (url dir : String) (fs : FS),
      valid_image_file (save_image fetch1 url dir fs).2.1 (image_cache_path url dir) →
      (save_image fetch1 url dir fs).1 = image_cache_path url dir ∧
      save_image fetch2 url dir (save_image fetch1 url dir fs).2.1 =
        (image_cache_path url dir, (save_image fetch1 url dir fs).2.1, 0)) := by
  constructor
  · intro fetch1 fetch2 url dir fs hval
    set p := video_cache_path url dir with hp
    by_cases hc : (fs.lookup p).isSome ∧ 0 < fs.getsize p
    · rw [save_video_hit fetch1 url dir fs hc] at hval ⊢
      exact ⟨rfl, save_video_hit fetch2 url dir fs (valid_video_file_hit fs p hval)⟩
    · cases fetch1 with
      | error e =>
        rw [save_video_miss_error e url dir fs hc] at hval
        obtain ⟨mb, hl, hsz, -⟩ := hval
        rw [FS.lookup_insert] at hl
        cases hl
        exact absurd hsz (by simp)
      | ok content =>
        by_cases hsz : 0 < content.size
        · cases hpr : content.probe with
          | ok df =>
            by_cases hd : 0 < df.1 ∧ 0 < df.2
            · rw [save_video_miss_good content url dir fs df.1 df.2 hc hsz (by rw [hpr]) hd]
                at hval ⊢
              exact ⟨rfl, save_video_hit fetch2 url dir _
                (valid_video_file_hit _ p hval)⟩
            · rw [save_video_miss_badmetrics content url dir fs df.1 df.2 hc hsz
                (by rw [hpr]) hd] at hval
              obtain ⟨mb, hl, -, d0, f0, hpr0, hd0, hf0⟩ := hval
              rw [FS.lookup_insert] at hl
              cases hl
              rw [hpr] at hpr0
              cases hpr0
              exact absurd ⟨hd0, hf0⟩ hd
          | error e =>
            rw [save_video_miss_probeerr content url dir fs e hc hsz hpr] at hval
            obtain ⟨mb, hl, -⟩ := hval
            rw [FS.lookup_erase] at hl
            cases hl
        · rw [save_video_miss_emptyfile content url dir fs hc hsz] at hval
          obtain ⟨mb, hl, hsz2, -⟩ := hval
          rw [FS.lookup_insert] at hl
          cases hl
          exact absurd hsz2 hsz
  · intro fetch1 fetch2 url dir fs hval
    set p := image_cache_path url dir with hp
    by_cases hc : (fs.lookup p).isSome ∧ 0 < fs.getsize p
    · rw [save_image_hit fetch1 url dir fs hc] at hval ⊢
      exact ⟨rfl, save_image_hit fetch2 url dir fs (valid_image_file_hit fs p hval)⟩
    · cases fetch1 with
      | error e =>
        rw [save_image_miss_error e url dir fs hc] at hval
        exact absurd (valid_image_file_hit fs p hval) hc
      | ok resp =>
        by_cases hst : resp.status = 200
        · cases hdec : resp.decode with
          | ok n =>
            rw [save_image_miss_decode resp url dir fs n hc hst hdec] at hval ⊢
            exact ⟨rfl, save_image_hit fetch2 url dir _ (valid_image_file_hit _ p hval)⟩
          | error e =>
            rw [save_image_miss_decodeerr resp url dir fs e hc hst hdec] at hval
            exact absurd (valid_image_file_hit fs p hval) hc
        · rw [save_image_miss_badstatus resp url dir fs hc hst] at hval
          exact absurd (valid_image_file_hit fs p hval) hc

/-- Witness for claim C7 at concrete inputs. -/
theorem C7_materialize_idempotent_witness :
    ((save_video (.ok ⟨10, .ok (4, 30)⟩) "u" "d" []).1 =
        .ok (video_cache_path "u" "d") ∧
      save_video (.error "down") "u" "d"
          ((save_video (.ok ⟨10, .ok (4, 30)⟩) "u" "d" []).2.1) =
        (.ok (video_cache_path "u" "d"),
          (save_video (.ok ⟨10, .ok (4, 30)⟩) "u" "d" []).2.1, 0)) ∧
    ((save_image (.ok ⟨200, .ok 9⟩) "i" "d" []).1 = image_cache_path "i" "d" ∧
      save_image (.error "down") "i" "d"
          ((save_image (.ok ⟨200, .ok 9⟩) "i" "d" []).2.1) =
        (image_cache_path "i" "d",
          (save_image (.ok ⟨200, .ok 9⟩) "i" "d" []).2.1, 0)) :=
  ⟨C7_materialize_idempotent.1 (.ok ⟨10, .ok (4, 30)⟩) (.error "down") "u" "d" []
      ⟨⟨10, .ok (4, 30)⟩, by decide, by decide, 4, 30, by decide, by decide, by decide⟩,
   C7_materialize_idempotent.2 (.ok ⟨200, .ok 9⟩) (.error "down") "i" "d" []
      ⟨⟨9, .error "not a video"⟩, by decide, by decide⟩⟩

/-- Claim C8: `get_api_key` increments the shared counter before
indexing, so with a list of at least two keys the first list-backed call
of the process (counter 0) returns the key at index 1; a single-string
configured value is returned as-is with the counter untouched, so
interleaved single-string calls do not advance the rotation. -/
theorem C8_key_rotation (keys : List String) (s : String) (c : Nat)
    (hlen : 2 ≤ keys.length) (hs : s.isEmpty = false) :
    get_api_key (.list keys) 0 = .ok (keys.getD 1 "", 1) ∧
    get_api_key (.str s) c = .ok (s, c) := by
  constructor
  · have hne : (ConfigValue.list keys).isFalsy = false := by
      cases keys with
      | nil => simp at hlen
      | cons a t => rfl
    have hmod : (0 + 1) % keys.length = 1 := Nat.mod_eq_of_lt (by omega)
    simp [get_api_key, hne, hmod]
  · simp [get_api_key, ConfigValue.isFalsy, hs]

/-- Witness for claim C8 at a concrete key list. -/
theorem C8_key_rotation_witness :
    get_api_key (.list ["alpha", "beta", "gamma"]) 0 =
      .ok ((["alpha", "beta", "gamma"] : List String).getD 1 "", 1) ∧
    get_api_key (.str "solo") 5 = .ok ("solo", 5) :=
  C8_key_rotation ["alpha", "beta", "gamma"] "solo" 5 (by decide) (by decide)

/-- Claim C9: when a freshly downloaded video file is non-empty and the
decode-probe raises no exception but reports a non-positive duration or
frame rate, `save_video` returns the empty string while leaving the file
on disk; every subsequent `save_video` call for the same URL then returns
that invalid file's path as a cache hit with zero network requests. -/
theorem C9_invalid_video_cached (url dir : String) (fs : FS) (n : Nat) (d f : ℚ)
    (hmiss : ¬ ((fs.lookup (video_cache_path url dir)).isSome ∧
      0 < fs.getsize (video_cache_path url dir)))
    (hn : 0 < n) (hbad : d ≤ 0 ∨ f ≤ 0) :
    save_video (.ok ⟨n, .ok (d, f)⟩) url dir fs =
      (.ok "", fs.insert (video_cache_path url dir) ⟨n, .ok (d, f)⟩, 1) ∧
    ∀ fetch2 : Except String MediaBytes,
      save_video fetch2 url dir
          (fs.insert (video_cache_path url dir) ⟨n, .ok (d, f)⟩) =
        (.ok (video_cache_path url dir),
          fs.insert (video_cache_path url dir) ⟨n, .ok (d, f)⟩, 0) := by
  have hbad' : ¬ ((0:ℚ) < d ∧ (0:ℚ) < f) := by
    rcases hbad with h | h
    · exact fun hc => absurd hc.1 (not_lt.mpr h)
    · exact fun hc => absurd hc.2 (not_lt.mpr h)
  constructor
  · exact save_video_miss_badmetrics ⟨n, .ok (d, f)⟩ url dir fs d f hmiss hn rfl hbad'
  · intro fetch2
    apply save_video_hit
    constructor
    · rw [FS.lookup_insert]
      rfl
    · simp [FS.getsize, FS.lookup_insert, hn]

/-- Witness for claim C9 at a concrete invalid probe result. -/
theorem C9_invalid_video_cached_witness :
    save_video (.ok ⟨7, .ok (0, 25)⟩) "v?q=1" "c" [] =
      (.ok "", [(video_cache_path "v?q=1" "c", ⟨7, .ok (0, 25)⟩)], 1) ∧
    ∀ fetch2 : Except String MediaBytes,
      save_video fetch2 "v?q=1" "c"
          [(video_cache_path "v?q=1" "c", ⟨7, .ok (0, 25)⟩)] =
        (.ok (video_cache_path "v?q=1" "c"),
          [(video_cache_path "v?q=1" "c", ⟨7, .ok (0, 25)⟩)], 0) :=
  C9_invalid_video_cached "v?q=1" "c" [] 7 0 25 (by decide) (by decide) (Or.inl (by decide))

/-- Claim C10: for every `source` other than exactly `"pixabay"`
(including `"pexels"`, the empty string and unknown strings),
`download_videos` and `download_images` behave exactly as with
`source = "pexels"`, i.e. they use the Pexels search adapters; an
unrecognized source is silently accepted (the embedded orchestrators are
total functions). -/
theorem C10_unknown_source_pexels (source : String) (env : SearchEnv)
    (materialize : String → String)
    (shuffle : List MaterialInfo → List MaterialInfo)
    (search_terms : List String) (video_width video_height : Nat)
    (random_mode : Bool) (audio_duration max_clip_duration : ℚ)
    (image_count : Nat) (hsource : source ≠ "pixabay") :
    download_videos env materialize shuffle search_terms source video_width
        video_height random_mode audio_duration max_clip_duration =
      download_videos env materialize shuffle search_terms "pexels" video_width
        video_height random_mode audio_duration max_clip_duration ∧
    download_images env materialize shuffle search_terms source image_count =
      download_images env materialize shuffle search_terms "pexels" image_count := by
  refine ⟨?_, ?_⟩ <;> simp [download_videos, download_images, hsource]

/-- Witness for claim C10 at the empty-string source. -/
theorem C10_unknown_source_pexels_witness :
    download_videos trivial_env (fun u => u) (fun l => l) ["tree"] "" 1080
        1920 true 10 5 =
      download_videos trivial_env (fun u => u) (fun l => l) ["tree"] "pexels" 1080
        1920 true 10 5 ∧
    download_images trivial_env (fun u => u) (fun l => l) ["tree"] "" 20 =
      download_images trivial_env (fun u => u) (fun l => l) ["tree"] "pexels" 20 :=
  C10_unknown_source_pexels "" trivial_env (fun u => u) (fun l => l) ["tree"] 1080 1920 true 10 5 20
    (by decide)
